import Mathlib

/-!
Verification of the video-synthesis core of `streamlit_app.py`
(`create_video_from_audio_and_image`): the pipeline that combines one
audio file and one still image into an MP4 video.

The function is a linear script over the MoviePy library:
  1. `AudioFileClip(audio_path)` - decode audio, exposing `duration`;
  2. `ImageClip(image_path, duration=audio_clip.duration)` - decode image;
  3. `image_clip.resized(height=1080)` (or the 1.x `resize` fallback);
  4. `image_clip.with_audio(audio_clip)` (or the 1.x `set_audio` fallback);
  5. `final_video.write_videofile(output_path, fps=24, codec='libx264',
     audio_codec='aac', temp_audiofile='temp-audio-<uuid>.m4a',
     remove_temp=True, logger=None)`;
  6. close the three clips and return the output path;
all wrapped in `try: ... except Exception: st.error(...); return None`.

The embedding models one invocation as a function of an environment that
fixes the outside world's responses (whether each decode succeeds, the
audio duration, the image dimensions, the fresh UUIDs, whether the encoder
succeeds), and records the caller-visible result together with a trace of
filesystem writes/deletes and handle open/close events.
-/

/-- The failure points of the script body: audio decode (`AudioFileClip`),
image decode (`ImageClip`), and composition/encode (`write_videofile`). -/
inductive SynthError where
  | audioDecode
  | imageDecode
  | encode
deriving DecidableEq

/-- Decoder/encoder handles opened by the body: the audio clip, the image
clip, and the composed final video. -/
inductive Handle where
  | audioClip
  | imageClip
  | finalVideo
deriving DecidableEq

/-- One invocation's environment: the input paths, the outside world's
responses to each library call, and the two fresh UUID strings drawn by
`uuid.uuid4()`.  `audioDuration = none` means `AudioFileClip` raises;
`imageSize = none` means `ImageClip` raises; `encodeOk = false` means
`write_videofile` raises, with `halfWritten` telling whether the output
file was already partially written when it failed. -/
structure Env where
  audioPath : String
  imagePath : String
  audioDuration : Option ℚ
  imageSize : Option (ℕ × ℕ)
  tempDir : String
  outUuid : String
  muxUuid : String
  encodeOk : Bool
  halfWritten : Bool

/-- `os.path.join(tempfile.gettempdir(), f"video_{uuid.uuid4()}.mp4")`
(line 50 of the source). -/
def outputPath (env : Env) : String :=
  env.tempDir ++ "/video_" ++ env.outUuid ++ ".mp4"

/-- `f'temp-audio-{uuid.uuid4()}.m4a'` (line 58 of the source); note the
name is relative, with no temp-directory component. -/
def tempAudioFile (env : Env) : String :=
  "temp-audio-" ++ env.muxUuid ++ ".m4a"

/-- Modelled from the spec: the width computed by MoviePy's
`resized(height=...)` call, whose library code is not part of this
repository.  The spec states the width is derived from the original
aspect ratio and "rounded to the nearest even integer for encoder
compatibility". -/
def roundEven (q : ℚ) : ℤ :=
  2 * round (q / 2)

/-- Modelled from the spec: `image_clip.resized(height=1080)` (source
lines 34-39) rescales a `w × h` image proportionally so the height is
exactly 1080 and the width is the aspect-preserving value rounded to the
nearest even integer. -/
def scaledSize (w h : ℕ) : ℤ × ℕ :=
  (roundEven ((w : ℚ) * 1080 / (h : ℚ)), 1080)

/-- Modelled from the spec: the duration of the file written by
`write_videofile` at 24 fps (library code not in this repository) - the
timeline of duration `d` seconds is encoded as whole frames covering it,
so the written duration is `⌈24·d⌉ / 24` seconds. -/
def encodedDuration (d : ℚ) : ℚ :=
  ((⌈d * 24⌉ : ℤ) : ℚ) / 24

/-- The keyword arguments of the `write_videofile` call (source lines
53-61). -/
structure WriteCall where
  path : String
  fps : ℕ
  codec : String
  audioCodec : String
  tempAudiofile : String
  removeTemp : Bool
deriving DecidableEq

/-- The `write_videofile` invocation built by the source for a given
environment: `fps=24, codec='libx264', audio_codec='aac',
temp_audiofile=f'temp-audio-{uuid4}.m4a', remove_temp=True`. -/
def writeCallOf (env : Env) : WriteCall :=
  { path := outputPath env
    fps := 24
    codec := "libx264"
    audioCodec := "aac"
    tempAudiofile := tempAudioFile env
    removeTemp := true }

/-- The value computed by the `try:` block of
`create_video_from_audio_and_image`: the returned output path, or the
exception raised at whichever step failed first. -/
def bodyResult (env : Env) : Except SynthError String :=
  match env.audioDuration with
  | none => .error .audioDecode
  | some _ =>
    match env.imageSize with
    | none => .error .imageDecode
    | some _ =>
      if env.encodeOk then .ok (outputPath env) else .error .encode

/-- `create_video_from_audio_and_image` as seen by its caller: the
`except Exception` handler catches every exception from the body, reports
it through the UI, and returns `None`; on success the output path is
returned. -/
def create_video_from_audio_and_image (env : Env) : Option String :=
  match bodyResult env with
  | .ok p => some p
  | .error _ => none

/-- The observable trace of one invocation: which handles were opened and
closed, which files were created and deleted during the call, the
`write_videofile` invocation if one was made, the duration passed to
`ImageClip`, the scaled frame, and the duration of the written video. -/
structure Outcome where
  opened : List Handle
  closed : List Handle
  created : List String
  deleted : List String
  writeCall : Option WriteCall
  clipDuration : Option ℚ
  frame : Option (ℤ × ℕ)
  videoDuration : Option ℚ

/-- Files created during the call that were not deleted before it
returned. -/
def Outcome.existsAfter (o : Outcome) : List String :=
  o.created.filter (fun p => ¬ p ∈ o.deleted)

/-- The full execution trace of `create_video_from_audio_and_image` on a
given environment, following the source line by line.  The `remove_temp=True`
behaviour of `write_videofile` (temp audio buffer deleted after encoding
regardless of outcome) is modelled from the spec, the library code not
being part of this repository. -/
def run (env : Env) : Outcome :=
  match env.audioDuration with
  | none =>
      { opened := [], closed := [], created := [], deleted := []
        writeCall := none, clipDuration := none, frame := none
        videoDuration := none }
  | some d =>
    match env.imageSize with
    | none =>
        { opened := [.audioClip], closed := [], created := [], deleted := []
          writeCall := none, clipDuration := none, frame := none
          videoDuration := none }
    | some (w, h) =>
      if env.encodeOk then
        { opened := [.audioClip, .imageClip, .finalVideo]
          closed := [.audioClip, .imageClip, .finalVideo]
          created := [tempAudioFile env, outputPath env]
          deleted := [tempAudioFile env]
          writeCall := some (writeCallOf env)
          clipDuration := some d
          frame := some (scaledSize w h)
          videoDuration := some (encodedDuration d) }
      else
        { opened := [.audioClip, .imageClip, .finalVideo]
          closed := []
          created :=
            if env.halfWritten then [tempAudioFile env, outputPath env]
            else [tempAudioFile env]
          deleted := [tempAudioFile env]
          writeCall := some (writeCallOf env)
          clipDuration := some d
          frame := some (scaledSize w h)
          videoDuration := none }

/-! ### Helper lemmas -/

/-- Two strings with the same prefix and suffix and different middles are
different strings. -/
lemma strApp_inj (p t a b : String) (h : p ++ a ++ t = p ++ b ++ t) :
    a = b := by
  have hd : p.data ++ a.data ++ t.data = p.data ++ b.data ++ t.data := by
    have := congrArg String.data h
    simpa [String.data_append] using this
  have h1 : a.data ++ t.data = b.data ++ t.data := by
    rw [List.append_assoc, List.append_assoc] at hd
    exact List.append_cancel_left hd
  have h2 : a.data = b.data := List.append_cancel_right h1
  cases a; cases b
  simp only at h2
  exact congrArg String.mk h2

/-- A path ending in `.mp4` never coincides with one ending in `.m4a`. -/
lemma mp4_ne_m4a (s1 s2 : String) : s1 ++ ".mp4" ≠ s2 ++ ".m4a" := by
  intro h
  have hd := congrArg String.data h
  simp only [String.data_append] at hd
  have := congrArg (fun l => l.getLast?) hd
  simp at this

/-- A file recorded as deleted is never among the files existing after the
call. -/
lemma deleted_not_existsAfter (o : Outcome) (p : String)
    (hp : p ∈ o.deleted) : p ∉ o.existsAfter := by
  intro hm
  rw [Outcome.existsAfter, List.mem_filter] at hm
  simp at hm
  exact hm.2 hp

/-- Concrete environment: both decodes succeed and the encode succeeds. -/
def envOk : Env :=
  { audioPath := "/tmp/in.wav", imagePath := "/tmp/in.png"
    audioDuration := some 10, imageSize := some (800, 600)
    tempDir := "/tmp", outUuid := "aaaa", muxUuid := "bbbb"
    encodeOk := true, halfWritten := false }

/-- Concrete environment: decodes succeed, the encode fails after the
output file was partially written. -/
def envEncodeFail : Env :=
  { audioPath := "/tmp/in.wav", imagePath := "/tmp/in.png"
    audioDuration := some 10, imageSize := some (800, 600)
    tempDir := "/tmp", outUuid := "cccc", muxUuid := "dddd"
    encodeOk := false, halfWritten := true }

/-- Concrete environment: the audio input cannot be decoded. -/
def envAudioFail : Env :=
  { audioPath := "/tmp/bad.wav", imagePath := "/tmp/in.png"
    audioDuration := none, imageSize := some (800, 600)
    tempDir := "/tmp", outUuid := "eeee", muxUuid := "ffff"
    encodeOk := true, halfWritten := false }

/-- Concrete environment: the image input cannot be decoded. -/
def envImgFail : Env :=
  { audioPath := "/tmp/in.wav", imagePath := "/tmp/bad.png"
    audioDuration := some 10, imageSize := none
    tempDir := "/tmp", outUuid := "gggg", muxUuid := "hhhh"
    encodeOk := true, halfWritten := false }
/-! ### Claims -/

/-- C1: for every valid (audio, image) input pair, the timeline's video
track is the still image held for exactly the audio's duration
(`ImageClip(image_path, duration=audio_clip.duration)`), and the duration
of the encoded output differs from the audio duration by at most one
frame interval (1/24 s). -/
theorem C1_output_duration (env : Env) (d : ℚ) (w h : ℕ)
    (ha : env.audioDuration = some d) (hi : env.imageSize = some (w, h))
    (he : env.encodeOk = true) :
    (run env).clipDuration = some d ∧
    (run env).videoDuration = some (encodedDuration d) ∧
    |encodedDuration d - d| ≤ 1 / 24 := by
  refine ⟨by simp [run, ha, hi, he], by simp [run, ha, hi, he], ?_⟩
  have h1 : (d * 24 : ℚ) ≤ ((⌈d * 24⌉ : ℤ) : ℚ) := Int.le_ceil _
  have h2 : ((⌈d * 24⌉ : ℤ) : ℚ) < d * 24 + 1 := Int.ceil_lt_add_one _
  rw [abs_le]
  unfold encodedDuration
  constructor <;> linarith

/-- Witness for C1 at a concrete environment: 10-second audio with an
800×600 image. -/
theorem C1_output_duration_witness :
    envOk.audioDuration = some 10 ∧ envOk.imageSize = some (800, 600) ∧
    envOk.encodeOk = true ∧
    ((run envOk).clipDuration = some 10 ∧
     (run envOk).videoDuration = some (encodedDuration 10) ∧
     |encodedDuration 10 - 10| ≤ 1 / 24) :=
  ⟨rfl, rfl, rfl, C1_output_duration envOk 10 800 600 rfl rfl rfl⟩

/-- C2: for every decodable `w × h` image, the scaled frame has height
exactly 1080, width `w·1080/h` rounded to the nearest even integer, and
the width differs from the exact aspect-preserving value by at most one
pixel. -/
theorem C2_frame_geometry (env : Env) (d : ℚ) (w h : ℕ)
    (ha : env.audioDuration = some d) (hi : env.imageSize = some (w, h))
    (_hh : 0 < h) :
    (run env).frame = some (scaledSize w h) ∧
    (scaledSize w h).2 = 1080 ∧
    Even (scaledSize w h).1 ∧
    |((scaledSize w h).1 : ℚ) - (w : ℚ) * 1080 / (h : ℚ)| ≤ 1 := by
  refine ⟨?_, rfl, ⟨round (((w : ℚ) * 1080 / (h : ℚ)) / 2), two_mul _⟩, ?_⟩
  · cases he : env.encodeOk <;> simp [run, ha, hi, he]
  · set q : ℚ := (w : ℚ) * 1080 / (h : ℚ) with hq
    have h1 : |q / 2 - (round (q / 2) : ℚ)| ≤ 1 / 2 := abs_sub_round (q / 2)
    have h2 : (((scaledSize w h).1 : ℤ) : ℚ) = 2 * ((round (q / 2) : ℤ) : ℚ) := by
      simp [scaledSize, roundEven, hq]
    rw [h2]
    have e1 : 2 * ((round (q / 2) : ℤ) : ℚ) - q =
        (-2) * (q / 2 - ((round (q / 2) : ℤ) : ℚ)) := by ring
    rw [e1, abs_mul]
    have e2 : |(-2 : ℚ)| = 2 := by norm_num
    rw [e2]
    linarith

/-- Witness for C2 at a concrete environment: an 800×600 image scales to
1440×1080. -/
theorem C2_frame_geometry_witness :
    envOk.audioDuration = some 10 ∧ envOk.imageSize = some (800, 600) ∧
    0 < 600 ∧
    ((run envOk).frame = some (scaledSize 800 600) ∧
     (scaledSize 800 600).2 = 1080 ∧
     Even (scaledSize 800 600).1 ∧
     |((scaledSize 800 600).1 : ℚ) - (800 : ℚ) * 1080 / (600 : ℚ)| ≤ 1) :=
  ⟨rfl, rfl, by norm_num, C2_frame_geometry envOk 10 800 600 rfl rfl (by norm_num)⟩

/-- C3: every successful synthesis invokes `write_videofile` with the
fixed parameters `fps=24`, `codec='libx264'`, `audio_codec='aac'`, and an
output path in the MP4 container (a `.mp4` file), and returns exactly
that path. -/
theorem C3_encode_parameters (env : Env) (p : String)
    (hs : create_video_from_audio_and_image env = some p) :
    (run env).writeCall = some (writeCallOf env) ∧
    (writeCallOf env).fps = 24 ∧
    (writeCallOf env).codec = "libx264" ∧
    (writeCallOf env).audioCodec = "aac" ∧
    (∃ stem, (writeCallOf env).path = stem ++ ".mp4") ∧
    p = (writeCallOf env).path := by
  cases ha : env.audioDuration with
  | none =>
    rw [create_video_from_audio_and_image, bodyResult, ha] at hs
    simp at hs
  | some d =>
    cases hi : env.imageSize with
    | none =>
      rw [create_video_from_audio_and_image, bodyResult, ha, hi] at hs
      simp at hs
    | some wh =>
      cases he : env.encodeOk with
      | false =>
        rw [create_video_from_audio_and_image, bodyResult, ha, hi, he] at hs
        simp at hs
      | true =>
        obtain ⟨w, h⟩ := wh
        rw [create_video_from_audio_and_image, bodyResult, ha, hi, he] at hs
        simp only [if_true, Option.some.injEq] at hs
        refine ⟨by simp [run, ha, hi, he], rfl, rfl, rfl,
          ⟨env.tempDir ++ "/video_" ++ env.outUuid, rfl⟩, ?_⟩
        rw [← hs]
        rfl

/-- Witness for C3 at a concrete successful environment. -/
theorem C3_encode_parameters_witness :
    create_video_from_audio_and_image envOk = some (outputPath envOk) ∧
    ((run envOk).writeCall = some (writeCallOf envOk) ∧
     (writeCallOf envOk).fps = 24 ∧
     (writeCallOf envOk).codec = "libx264" ∧
     (writeCallOf envOk).audioCodec = "aac" ∧
     (∃ stem, (writeCallOf envOk).path = stem ++ ".mp4") ∧
     outputPath envOk = (writeCallOf envOk).path) :=
  ⟨rfl, C3_encode_parameters envOk (outputPath envOk) rfl⟩

/-- C4 counterexample: when the encode fails after a partial write, the
function returns `None` — no `EncodeError` reaches the caller — and the
partially written output file still exists at the output path afterward. -/
theorem C4_counterexample :
    create_video_from_audio_and_image envEncodeFail = none ∧
    outputPath envEncodeFail ∈ (run envEncodeFail).existsAfter := by
  exact ⟨rfl, by decide⟩

/-- C4 amended: on any failure during composition or encoding, the
function catches the exception and returns `None`; no `EncodeError`
propagates, and a partially written output file is left behind at the
output path rather than deleted. -/
theorem C4_failure_no_cleanup (env : Env) (d : ℚ) (w h : ℕ)
    (ha : env.audioDuration = some d) (hi : env.imageSize = some (w, h))
    (he : env.encodeOk = false) :
    create_video_from_audio_and_image env = none ∧
    (env.halfWritten = true → outputPath env ∈ (run env).existsAfter) := by
  constructor
  · rw [create_video_from_audio_and_image, bodyResult, ha, hi, he]
    simp
  · intro hp
    have hne : outputPath env ≠ tempAudioFile env := mp4_ne_m4a _ _
    simp [run, ha, hi, he, hp, Outcome.existsAfter, hne]

/-- Witness for the amended C4 at a concrete environment. -/
theorem C4_failure_no_cleanup_witness :
    envEncodeFail.audioDuration = some 10 ∧
    envEncodeFail.imageSize = some (800, 600) ∧
    envEncodeFail.encodeOk = false ∧
    envEncodeFail.halfWritten = true ∧
    (create_video_from_audio_and_image envEncodeFail = none ∧
     outputPath envEncodeFail ∈ (run envEncodeFail).existsAfter) :=
  ⟨rfl, rfl, rfl, rfl,
    (C4_failure_no_cleanup envEncodeFail 10 800 600 rfl rfl rfl).1,
    (C4_failure_no_cleanup envEncodeFail 10 800 600 rfl rfl rfl).2 rfl⟩

/-- C5 counterexample: an undecodable audio input makes the body raise at
the decode phase, yet the caller receives plain `None` — exactly what an
encode-phase failure produces — so no `DecodeError` distinct from an
`EncodeError` is surfaced and nothing identifies the failing phase. -/
theorem C5_counterexample :
    bodyResult envAudioFail = .error .audioDecode ∧
    bodyResult envEncodeFail = .error .encode ∧
    create_video_from_audio_and_image envAudioFail = none ∧
    create_video_from_audio_and_image envAudioFail =
      create_video_from_audio_and_image envEncodeFail :=
  ⟨rfl, rfl, rfl, rfl⟩

/-- C5 amended: an unreadable or corrupt audio or image input makes the
function return `None`, the same caller-visible result as any
composition/encoding failure; the function defines no error taxonomy, so
the result does not identify which phase failed. -/
theorem C5_no_error_taxonomy (env : Env) (e : SynthError)
    (hf : bodyResult env = .error e) :
    create_video_from_audio_and_image env = none := by
  rw [create_video_from_audio_and_image, hf]

/-- Witness for the amended C5 at a concrete environment with
undecodable audio. -/
theorem C5_no_error_taxonomy_witness :
    bodyResult envAudioFail = .error .audioDecode ∧
    create_video_from_audio_and_image envAudioFail = none :=
  ⟨rfl, C5_no_error_taxonomy envAudioFail .audioDecode rfl⟩

/-- C6 counterexample: when the encode fails, all three handles (audio
clip, image clip, final video) were opened but none is closed before the
function returns, so handles are not released on every exit path. -/
theorem C6_counterexample :
    (run envEncodeFail).opened = [.audioClip, .imageClip, .finalVideo] ∧
    (run envEncodeFail).closed = [] := by
  constructor <;> rfl

/-- C6 amended: the three `close()` calls run only on the success path -
on success every opened handle (audio clip, image clip, final video) is
closed before the path is returned, while on any failure no handle at all
is closed. -/
theorem C6_close_only_on_success (env : Env) :
    (∀ p, create_video_from_audio_and_image env = some p →
      (run env).closed = [.audioClip, .imageClip, .finalVideo] ∧
      (run env).closed = (run env).opened) ∧
    (create_video_from_audio_and_image env = none →
      (run env).closed = []) := by
  cases ha : env.audioDuration with
  | none => simp [create_video_from_audio_and_image, bodyResult, run, ha]
  | some d =>
    cases hi : env.imageSize with
    | none => simp [create_video_from_audio_and_image, bodyResult, run, ha, hi]
    | some wh =>
      obtain ⟨w, h⟩ := wh
      cases he : env.encodeOk with
      | false =>
        simp [create_video_from_audio_and_image, bodyResult, run, ha, hi, he]
      | true =>
        simp [create_video_from_audio_and_image, bodyResult, run, ha, hi, he]

/-- Witness for the amended C6: on a concrete successful environment all
three handles are closed, and on a concrete failing one none is. -/
theorem C6_close_only_on_success_witness :
    create_video_from_audio_and_image envOk = some (outputPath envOk) ∧
    (run envOk).closed = [.audioClip, .imageClip, .finalVideo] ∧
    create_video_from_audio_and_image envImgFail = none ∧
    (run envImgFail).closed = [] :=
  ⟨rfl,
    ((C6_close_only_on_success envOk).1 (outputPath envOk) rfl).1,
    rfl,
    (C6_close_only_on_success envImgFail).2 rfl⟩

/-- C7: the output path is generated as `<temp-dir>/video_<uuid>.mp4`,
and two invocations drawing distinct fresh UUIDs in the same temp
directory produce distinct output paths and distinct temporary mux file
names, so neither overwrites the other's files. -/
theorem C7_unique_output_paths (e1 e2 : Env)
    (ht : e1.tempDir = e2.tempDir)
    (hu : e1.outUuid ≠ e2.outUuid) (hm : e1.muxUuid ≠ e2.muxUuid) :
    outputPath e1 = e1.tempDir ++ "/video_" ++ e1.outUuid ++ ".mp4" ∧
    outputPath e1 ≠ outputPath e2 ∧
    tempAudioFile e1 ≠ tempAudioFile e2 := by
  refine ⟨rfl, ?_, ?_⟩
  · intro h
    apply hu
    rw [outputPath, outputPath, ht] at h
    exact strApp_inj (e2.tempDir ++ "/video_") ".mp4" _ _ h
  · intro h
    apply hm
    exact strApp_inj "temp-audio-" ".m4a" _ _ h

/-- Witness for C7 at two concrete environments sharing the temp
directory but holding different fresh UUIDs. -/
theorem C7_unique_output_paths_witness :
    envOk.tempDir = envEncodeFail.tempDir ∧
    envOk.outUuid ≠ envEncodeFail.outUuid ∧
    envOk.muxUuid ≠ envEncodeFail.muxUuid ∧
    (outputPath envOk = envOk.tempDir ++ "/video_" ++ envOk.outUuid ++ ".mp4" ∧
     outputPath envOk ≠ outputPath envEncodeFail ∧
     tempAudioFile envOk ≠ tempAudioFile envEncodeFail) :=
  ⟨rfl, by decide, by decide,
    C7_unique_output_paths envOk envEncodeFail rfl (by decide) (by decide)⟩

/-- C8: the temporary mux audio buffer `temp-audio-<uuid>.m4a` is never
among the files still existing when the call returns, whatever the
outcome; and when the image input cannot be decoded, no file at all is
created, so in particular no mux file is left behind. -/
theorem C8_temp_mux_removed (env : Env) :
    tempAudioFile env ∉ (run env).existsAfter ∧
    (env.imageSize = none → (run env).created = []) := by
  constructor
  · cases ha : env.audioDuration with
    | none => simp [run, ha, Outcome.existsAfter]
    | some d =>
      cases hi : env.imageSize with
      | none => simp [run, ha, hi, Outcome.existsAfter]
      | some wh =>
        obtain ⟨w, h⟩ := wh
        apply deleted_not_existsAfter
        cases he : env.encodeOk <;> simp [run, ha, hi, he]
  · intro hi
    cases ha : env.audioDuration <;> simp [run, ha, hi]

/-- Witness for C8 at a concrete environment whose image input is
unsupported. -/
theorem C8_temp_mux_removed_witness :
    envImgFail.imageSize = none ∧
    tempAudioFile envImgFail ∉ (run envImgFail).existsAfter ∧
    (run envImgFail).created = [] :=
  ⟨rfl, (C8_temp_mux_removed envImgFail).1,
    (C8_temp_mux_removed envImgFail).2 rfl⟩

/-- C9: the call never writes to or deletes `audio_path` or `image_path`
(the freshly generated output and mux names being distinct from them),
and on success the returned path is the generated output path, whose file
still exists when the call returns. -/
theorem C9_inputs_untouched (env : Env)
    (ha1 : env.audioPath ≠ tempAudioFile env)
    (ha2 : env.audioPath ≠ outputPath env)
    (hi1 : env.imagePath ≠ tempAudioFile env)
    (hi2 : env.imagePath ≠ outputPath env) :
    (env.audioPath ∉ (run env).created ∧ env.audioPath ∉ (run env).deleted ∧
     env.imagePath ∉ (run env).created ∧ env.imagePath ∉ (run env).deleted) ∧
    (∀ p, create_video_from_audio_and_image env = some p →
      p = outputPath env ∧ p ∈ (run env).existsAfter) := by
  have hout : outputPath env ≠ tempAudioFile env := mp4_ne_m4a _ _
  cases ha : env.audioDuration with
  | none =>
    refine ⟨by simp [run, ha], ?_⟩
    intro p hp
    rw [create_video_from_audio_and_image, bodyResult, ha] at hp
    simp at hp
  | some d =>
    cases hi : env.imageSize with
    | none =>
      refine ⟨by simp [run, ha, hi], ?_⟩
      intro p hp
      rw [create_video_from_audio_and_image, bodyResult, ha, hi] at hp
      simp at hp
    | some wh =>
      obtain ⟨w, h⟩ := wh
      cases he : env.encodeOk with
      | false =>
        refine ⟨?_, ?_⟩
        · cases hw : env.halfWritten <;>
            simp [run, ha, hi, he, hw, ha1, ha2, hi1, hi2]
        · intro p hp
          rw [create_video_from_audio_and_image, bodyResult, ha, hi, he] at hp
          simp at hp
      | true =>
        refine ⟨by simp [run, ha, hi, he, ha1, ha2, hi1, hi2], ?_⟩
        intro p hp
        rw [create_video_from_audio_and_image, bodyResult, ha, hi, he] at hp
        simp only [if_true, Option.some.injEq] at hp
        subst hp
        refine ⟨rfl, ?_⟩
        simp [run, ha, hi, he, Outcome.existsAfter, List.mem_filter, hout]

/-- Witness for C9 at a concrete successful environment with concrete
input paths. -/
theorem C9_inputs_untouched_witness :
    (envOk.audioPath ≠ tempAudioFile envOk ∧
     envOk.audioPath ≠ outputPath envOk ∧
     envOk.imagePath ≠ tempAudioFile envOk ∧
     envOk.imagePath ≠ outputPath envOk) ∧
    envOk.audioPath ∉ (run envOk).created ∧
    outputPath envOk ∈ (run envOk).existsAfter :=
  ⟨⟨by decide, by decide, by decide, by decide⟩,
    (C9_inputs_untouched envOk (by decide) (by decide) (by decide)
      (by decide)).1.1,
    ((C9_inputs_untouched envOk (by decide) (by decide) (by decide)
      (by decide)).2 (outputPath envOk) rfl).2⟩

/-- C10: the wrapped function is total and never propagates an exception:
for every environment the body either raises - and the handler turns it
into `None` - or returns the output path, which is passed through, so the
caller always receives exactly one of a path or `None`. -/
theorem C10_never_raises (env : Env) :
    (∃ e, bodyResult env = .error e ∧
      create_video_from_audio_and_image env = none) ∨
    (∃ p, bodyResult env = .ok p ∧
      create_video_from_audio_and_image env = some p) := by
  cases hb : bodyResult env with
  | error e =>
    exact Or.inl ⟨e, rfl, by rw [create_video_from_audio_and_image, hb]⟩
  | ok p =>
    exact Or.inr ⟨p, rfl, by rw [create_video_from_audio_and_image, hb]⟩
